import Mathlib

/-!
Verification development for the go-where geolocation service.

This file shallowly embeds the Go code of the repository (services/user_service.go,
the GeoService in the project README, handlers, models/user_model.go,
utils/errors/errors.go) and proves/refutes the specified properties.

Modelling conventions:
* Go float64 coordinates and distances are modelled as `ℚ` (the claims under
  study are about control flow, unit conversion, filtering and ordering, not
  about floating-point rounding).
* MongoDB is modelled as a list of user documents; `FindOne` takes the first
  document matching the filter, `UpdateOne` updates the first matching
  document.  `$addToSet` appends iff absent, `$pull` removes all occurrences.
* Redis is modelled as (a) an association list from string keys to cached user
  payloads (JSON (un)marshalling is the identity, so the unmarshal-failure
  branch of GetUser never fires), and (b) geospatial sets as lists of named
  points.  `GEORADIUS` computes distances with an abstract distance function
  `DistFn` (the store's great-circle distance, in the store's native unit for
  the query, here always "km"), returns every member within the radius,
  sorts ascending only when the query asks for it (otherwise the store's
  reply order is the list order), and truncates to `Count` when given.
  TTLs (`Expire`, Set expirations) have no observable effect inside a single
  request sequence and are not modelled.
* Values produced by the environment (generated UUIDs / ObjectIDs, bcrypt
  hashes, signed JWTs, injected Redis failures) are passed in as parameters.
-/

namespace GoWhere

/-- models.GeoPoint. -/
structure GeoPoint where
  type : String
  coordinates : List ℚ
deriving DecidableEq, Repr

/-- models.User (user_model.go). `id` is the internal Mongo `_id` hex handle,
`publicID` the external identifier. -/
structure User where
  id : String
  publicID : String
  username : String
  email : String
  passwordHash : String
  favoritePOIs : List String
  lastLocation : GeoPoint
  friends : List String
  pendingFriendRequests : List String
  pendingFriendRequestsSent : List String
deriving DecidableEq, Repr

/-- models.POI. -/
structure POI where
  id : String
  name : String
  description : String
  poiKind : String
  location : GeoPoint
  tags : List String
  address : String
deriving DecidableEq, Repr

/-- utils/errors APIError. -/
structure APIError where
  code : String
  message : String
  status : Nat
  details : String
deriving DecidableEq, Repr

def ErrInvalidInput : APIError := ⟨"INVALID_INPUT", "Invalid request data", 400, ""⟩

def ErrUnauthorized : APIError := ⟨"UNAUTHORIZED", "Authentication required", 401, ""⟩

def ErrNotFound : APIError := ⟨"NOT_FOUND", "Resource not found", 404, ""⟩

def ErrInternal : APIError := ⟨"INTERNAL_SERVER_ERROR", "Internal server error", 500, ""⟩

def ErrConflict : APIError := ⟨"CONFLICT", "Resource conflict", 409, ""⟩

/-- Service-level error values.  `api` carries a structured `*APIError`;
every other constructor is one concrete `fmt.Errorf` site of the source (a
generic Go error, which the HTTP middleware renders as a 500 UNKNOWN_ERROR,
not as a structured kind), or an error propagated from a store client. -/
inductive SvcError where
  | api (e : APIError)
  | invalidCoordinates (lat lon : ℚ)     -- "invalid coordinates: lat=%f, lon=%f"
  | pingUserNotFound                     -- "user not found: %v"
  | senderNotFound                       -- "Sender not found"
  | recipientNotFound                    -- "Recipient not found"
  | userNotFoundAccept                   -- "User not found"
  | alreadyFriends                       -- "Already friends"
  | alreadyPendingRequest                -- "Already pending friend request"
  | invalidUserID                        -- "Invalid user ID: %v"
  | invalidRecipientID                   -- "Invalid recipient ID: %v"
  | invalidSenderID                      -- "Invalid sender ID: %v"
  | cannotAcceptSelf                     -- "Cannot accept friend request from self"
  | noPendingRequest (senderName userName : String)
      -- "No pending friend request from %s to %s"
  | friendsNotFound                      -- "user not found: %v" in GetNearbyFriends
  | mongoNoDocuments                     -- mongo.ErrNoDocuments propagated raw
  | mongoUpdateFailed                    -- propagated UpdateOne error
  | redisSetFailed                       -- propagated redis Set error
  | redisGeoAddFailed                    -- propagated redis GeoAdd error
deriving DecidableEq, Repr

/-- Element of the "users:geo" / "pois:geo" geospatial sets: a named point. -/
structure GeoEntry where
  name : String
  lon : ℚ
  lat : ℚ
deriving DecidableEq, Repr

/-- One GEORADIUS reply element (WithCoord + WithDist; distance in the query
unit, here always km). -/
structure GeoHit where
  name : String
  lon : ℚ
  lat : ℚ
  distKm : ℚ
deriving DecidableEq, Repr

/-- Abstract store distance: lon₁ lat₁ lon₂ lat₂ ↦ great-circle distance in
km as the geo store computes it. -/
def DistFn : Type := ℚ → ℚ → ℚ → ℚ → ℚ

/-- Association-list lookup (Redis GET / HGET). -/
def lookupKV (kv : List (String × α)) (k : String) : Option α :=
  match kv with
  | [] => none
  | (k', v) :: rest => if k' = k then some v else lookupKV rest k

/-- Association-list store (Redis SET: overwrite or insert). -/
def setKV (kv : List (String × α)) (k : String) (v : α) : List (String × α) :=
  match kv with
  | [] => [(k, v)]
  | (k', v') :: rest => if k' = k then (k, v) :: rest else (k', v') :: setKV rest k v

/-- Mongo FindOne: first document matching the filter. -/
def findDoc (p : α → Prop) [DecidablePred p] : List α → Option α
  | [] => none
  | d :: rest => if p d then some d else findDoc p rest

/-- Mongo UpdateOne: update the first document matching the filter. -/
def updateDoc (p : α → Prop) [DecidablePred p] (f : α → α) : List α → List α
  | [] => []
  | d :: rest => if p d then f d :: rest else d :: updateDoc p f rest

/-- Mongo `$addToSet`: append iff not already a member. -/
def addToSet (l : List String) (x : String) : List String :=
  if x ∈ l then l else l ++ [x]

/-- Mongo `$pull`: remove every occurrence. -/
def pullFromList (l : List String) (x : String) : List String :=
  l.filter (fun y => y ≠ x)

/-- Hexadecimal digit, as hex.DecodeString accepts it. -/
def isHexChar (c : Char) : Bool :=
  (('0' ≤ c && c ≤ '9') || ('a' ≤ c && c ≤ 'f') || ('A' ≤ c && c ≤ 'F'))

/-- primitive.ObjectIDFromHex succeeds exactly on 24 hex digits. -/
def isValidObjectIDHex (s : String) : Bool :=
  s.length == 24 && s.data.all isHexChar

/-- A user document in the Mongo `users` collection.  Besides the fields the
Go struct maps (bson tag `last_location` for the position), documents can
carry a stray top-level `lastLocation` field: `UserLocationPing`'s `$set`
writes the key "lastLocation", which is NOT the struct's `last_location`
bson field, so Mongo stores it separately and struct decoding ignores it. -/
structure UserDoc where
  user : User
  lastLocationStray : Option GeoPoint
deriving DecidableEq, Repr

/-- Combined store state visible to the user service: the Mongo `users`
collection, the Redis key/value cache, and the Redis "users:geo" set. -/
structure SysState where
  mongo : List UserDoc
  cache : List (String × User)
  geo : List GeoEntry
deriving DecidableEq, Repr

/-- GetUser (user_service.go 57-83): Redis first (key "user:"+userID), then
Mongo by `public_id`, repopulating the cache on a Mongo hit. -/
def getUser (st : SysState) (userID : String) : Except SvcError User × SysState :=
  match lookupKV st.cache ("user:" ++ userID) with
  | some u => (Except.ok u, st)
  | none =>
    match findDoc (fun d => d.user.publicID = userID) st.mongo with
    | none => (Except.error SvcError.mongoNoDocuments, st)
    | some d =>
      (Except.ok d.user, { st with cache := setKV st.cache ("user:" ++ userID) d.user })

/-- Redis GEORADIUS on a geospatial set: members within `radius` of the
center (distance computed by the store's distance function `d`, in the
query's unit, here always "km"; the border is inclusive), each hit carrying
its coordinates and distance; sorted ascending only when `Sort: "ASC"` is
requested, otherwise in the store's reply order; truncated to `count` when
`Count` is given. -/
def geoRadius (d : DistFn) (geo : List GeoEntry) (lon lat radius : ℚ)
    (sortAsc : Bool) (count : Option Nat) : List GeoHit :=
  let within := geo.filterMap (fun e =>
    let dist := d lon lat e.lon e.lat
    if dist ≤ radius then some ⟨e.name, e.lon, e.lat, dist⟩ else none)
  let ordered := if sortAsc then
      List.insertionSort (fun a b => a.distKm ≤ b.distKm) within
    else within
  match count with
  | some n => ordered.take n
  | none => ordered

/-- Redis GEOADD: upsert a member's position. -/
def geoAdd (geo : List GeoEntry) (name : String) (lon lat : ℚ) : List GeoEntry :=
  match geo with
  | [] => [⟨name, lon, lat⟩]
  | e :: rest => if e.name = name then ⟨name, lon, lat⟩ :: rest else e :: geoAdd rest name lon lat

/-- Which store writes of `UserLocationPing` the environment fails (each one
models the corresponding client call returning a non-nil error, in which
case that write has no effect). -/
structure FailurePlan where
  mongoUpdateFails : Bool
  cacheSetFails : Bool
  geoAddFails : Bool
deriving DecidableEq, Repr

/-- The environment where every store call succeeds. -/
def allStoresUp : FailurePlan := ⟨false, false, false⟩

/-- UserLocationPing (user_service.go 86-157): caller identity from the
context, coordinate validation, user-existence check, Mongo `$set` of the
(stray) "lastLocation" field filtered by `public_id`, re-read of the user,
cache write of the merged payload under "user:"+PublicID, and GEOADD of the
PublicID into "users:geo".  The unconditional `Expire` call only refreshes a
TTL and is not modelled. -/
def userLocationPing (plan : FailurePlan) (st : SysState) (ctxUserID : Option String)
    (lat lon : ℚ) : Except SvcError Unit × SysState :=
  match ctxUserID with
  | none => (Except.error (SvcError.api ErrUnauthorized), st)
  | some userID =>
    if userID = "" then (Except.error (SvcError.api ErrUnauthorized), st)
    else if lat < -90 ∨ lat > 90 ∨ lon < -180 ∨ lon > 180 then
      (Except.error (SvcError.invalidCoordinates lat lon), st)
    else
      match getUser st userID with
      | (Except.error _, st1) => (Except.error SvcError.pingUserNotFound, st1)
      | (Except.ok _, st1) =>
        if plan.mongoUpdateFails then (Except.error SvcError.mongoUpdateFailed, st1)
        else
          let m2 := updateDoc (fun dd => dd.user.publicID = userID)
            (fun dd => { dd with lastLocationStray := some ⟨"Point", [lon, lat]⟩ }) st1.mongo
          let st2 := { st1 with mongo := m2 }
          match getUser st2 userID with
          | (Except.error e, st3) => (Except.error e, st3)
          | (Except.ok user, st3) =>
            let user2 := { user with lastLocation := ⟨"Point", [lon, lat]⟩ }
            if plan.cacheSetFails then (Except.error SvcError.redisSetFailed, st3)
            else
              let st4 := { st3 with cache := setKV st3.cache ("user:" ++ user2.publicID) user2 }
              if plan.geoAddFails then (Except.error SvcError.redisGeoAddFailed, st4)
              else
                let st5 := { st4 with geo := geoAdd st4.geo user2.publicID lon lat }
                (Except.ok (), st5)

/-- services.NearbyUsers: one row of a nearby-users / nearby-friends reply. -/
structure NearbyUser where
  username : String
  userID : String
  distance : ℚ
  lat : ℚ
  lon : ℚ
deriving DecidableEq, Repr

/-- The GetNearbyUsers result loop (user_service.go 188-208): skip the caller
itself, resolve each remaining hit through GetUser (which may repopulate the
cache), skip unresolvable hits, and keep the hit's coordinates and the
store-reported distance (in km, no unit conversion, no radius re-check). -/
def nearbyUsersLoop (uid : String) : SysState → List GeoHit → List NearbyUser × SysState
  | st, [] => ([], st)
  | st, h :: rest =>
    if h.name = uid then nearbyUsersLoop uid st rest
    else
      match getUser st h.name with
      | (Except.error _, st') => nearbyUsersLoop uid st' rest
      | (Except.ok u, st') =>
        let e : NearbyUser := ⟨u.username, u.publicID, h.distKm, h.lat, h.lon⟩
        let r := nearbyUsersLoop uid st' rest
        (e :: r.1, r.2)

/-- GetNearbyUsers (user_service.go 160-211).  The GeoRadius query passes the
caller's radius with `Unit: "km"` and requests neither `Sort` nor `Count`. -/
def getNearbyUsers (d : DistFn) (st : SysState) (ctxUserID : Option String)
    (lat lon radius : ℚ) : Except SvcError (List NearbyUser) × SysState :=
  match ctxUserID with
  | none => (Except.error (SvcError.api ErrUnauthorized), st)
  | some userID =>
    if userID = "" then (Except.error (SvcError.api ErrUnauthorized), st)
    else if userID = "" then (Except.error (SvcError.api ErrInvalidInput), st)
    else if lat < -90 ∨ lat > 90 ∨ lon < -180 ∨ lon > 180 then
      (Except.error (SvcError.api ErrInvalidInput), st)
    else
      let hits := geoRadius d st.geo lon lat radius false none
      let r := nearbyUsersLoop userID st hits
      (Except.ok r.1, r.2)

/-- Inner loop of GetNearbyFriends (user_service.go 251-268): for each entry
of the caller's Mongo `friends` list matching the hit's member name, resolve
and append one row. -/
def nearbyFriendsInner (h : GeoHit) : SysState → List String → List NearbyUser × SysState
  | st, [] => ([], st)
  | st, fid :: rest =>
    if h.name = fid then
      match getUser st h.name with
      | (Except.error _, st') => nearbyFriendsInner h st' rest
      | (Except.ok u, st') =>
        let e : NearbyUser := ⟨u.username, u.publicID, h.distKm, h.lat, h.lon⟩
        let r := nearbyFriendsInner h st' rest
        (e :: r.1, r.2)
    else nearbyFriendsInner h st rest

/-- Outer loop of GetNearbyFriends (user_service.go 245-269). -/
def nearbyFriendsLoop (uid : String) (friends : List String) :
    SysState → List GeoHit → List NearbyUser × SysState
  | st, [] => ([], st)
  | st, h :: rest =>
    if h.name = uid then nearbyFriendsLoop uid friends st rest
    else
      let r1 := nearbyFriendsInner h st friends
      let r2 := nearbyFriendsLoop uid friends r1.2 rest
      (r1.1 ++ r2.1, r2.2)

/-- GetNearbyFriends (user_service.go 213-271): the caller's document — and
with it the `friends` list used as the membership filter — is read directly
from Mongo, not through the Redis cache. -/
def getNearbyFriends (d : DistFn) (st : SysState) (ctxUserID : Option String)
    (lat lon radius : ℚ) : Except SvcError (List NearbyUser) × SysState :=
  match ctxUserID with
  | none => (Except.error (SvcError.api ErrUnauthorized), st)
  | some userID =>
    if userID = "" then (Except.error (SvcError.api ErrUnauthorized), st)
    else if lat < -90 ∨ lat > 90 ∨ lon < -180 ∨ lon > 180 then
      (Except.error (SvcError.api ErrInvalidInput), st)
    else
      match findDoc (fun dd => dd.user.publicID = userID) st.mongo with
      | none => (Except.error SvcError.friendsNotFound, st)
      | some callerDoc =>
        let hits := geoRadius d st.geo lon lat radius false none
        let r := nearbyFriendsLoop userID callerDoc.user.friends st hits
        (Except.ok r.1, r.2)

/-- SendFriendRequest (user_service.go 273-340).  Note the duplicate checks
compare the *internal* `user.ID` handle against the recipient's `friends`
and `pending_friend_requests` lists, while the updates store the *public*
identifiers (ctx `userID` and `recipientID`). -/
def sendFriendRequest (st : SysState) (ctxUserID : Option String) (recipientID : String) :
    Except SvcError Unit × SysState :=
  match ctxUserID with
  | none => (Except.error (SvcError.api ErrUnauthorized), st)
  | some userID =>
    if userID = "" then (Except.error (SvcError.api ErrUnauthorized), st)
    else if userID = recipientID then (Except.error (SvcError.api ErrInvalidInput), st)
    else
      match getUser st userID with
      | (Except.error _, st1) => (Except.error SvcError.senderNotFound, st1)
      | (Except.ok user, st1) =>
        match getUser st1 recipientID with
        | (Except.error _, st2) => (Except.error SvcError.recipientNotFound, st2)
        | (Except.ok recipient, st2) =>
          if user.id ∈ recipient.friends then (Except.error SvcError.alreadyFriends, st2)
          else if user.id ∈ recipient.pendingFriendRequests then
            (Except.error SvcError.alreadyPendingRequest, st2)
          else if isValidObjectIDHex user.id = false then
            (Except.error SvcError.invalidUserID, st2)
          else if isValidObjectIDHex recipient.id = false then
            (Except.error SvcError.invalidRecipientID, st2)
          else
            let m3 := updateDoc (fun dd => dd.user.id = recipient.id)
              (fun dd => { dd with user := { dd.user with
                pendingFriendRequests := addToSet dd.user.pendingFriendRequests userID } })
              st2.mongo
            let m4 := updateDoc (fun dd => dd.user.id = user.id)
              (fun dd => { dd with user := { dd.user with
                pendingFriendRequestsSent := addToSet dd.user.pendingFriendRequestsSent recipientID } })
              m3
            (Except.ok (), { st2 with mongo := m4 })

/-- AcceptFriendRequest (user_service.go 342-420). -/
def acceptFriendRequest (st : SysState) (ctxUserID : Option String) (senderID : String) :
    Except SvcError Unit × SysState :=
  match ctxUserID with
  | none => (Except.error (SvcError.api ErrUnauthorized), st)
  | some userID =>
    if userID = "" then (Except.error (SvcError.api ErrUnauthorized), st)
    else if userID = senderID then (Except.error SvcError.cannotAcceptSelf, st)
    else
      match getUser st senderID with
      | (Except.error _, st1) => (Except.error SvcError.senderNotFound, st1)
      | (Except.ok sender, st1) =>
        match getUser st1 userID with
        | (Except.error _, st2) => (Except.error SvcError.userNotFoundAccept, st2)
        | (Except.ok user, st2) =>
          if isValidObjectIDHex user.id = false then
            (Except.error SvcError.invalidUserID, st2)
          else if isValidObjectIDHex sender.id = false then
            (Except.error SvcError.invalidSenderID, st2)
          else
            match findDoc (fun dd =>
                dd.user.id = user.id ∧ senderID ∈ dd.user.pendingFriendRequests) st2.mongo with
            | none =>
              (Except.error (SvcError.noPendingRequest sender.username user.username), st2)
            | some _ =>
              let m3 := updateDoc (fun dd => dd.user.id = user.id)
                (fun dd => { dd with user := { dd.user with
                  friends := addToSet dd.user.friends senderID,
                  pendingFriendRequests := pullFromList dd.user.pendingFriendRequests senderID } })
                st2.mongo
              let m4 := updateDoc (fun dd => dd.user.id = sender.id)
                (fun dd => { dd with user := { dd.user with
                  friends := addToSet dd.user.friends userID,
                  pendingFriendRequestsSent := pullFromList dd.user.pendingFriendRequestsSent userID } })
                m3
              (Except.ok (), { st2 with mongo := m4 })

/-- Register (user_service.go 443-479).  `genPublicID` models `uuid.New()`,
`genObjectID` the `_id` Mongo assigns on insert, `passwordHash` the bcrypt
output.  The cached payload is the *local* struct — its `ID` field is still
empty — stored under "user:" + the *internal* inserted ID. -/
def register (st : SysState) (genPublicID genObjectID passwordHash : String)
    (username email : String) : Except SvcError String × SysState :=
  let user : User := { id := "", publicID := genPublicID, username := username, email := email,
                       passwordHash := passwordHash, favoritePOIs := [],
                       lastLocation := ⟨"Point", [0, 0]⟩, friends := [],
                       pendingFriendRequests := [], pendingFriendRequestsSent := [] }
  if ∃ dd ∈ st.mongo, dd.user.username = username ∧ dd.user.email = email then
    -- unique compound index on (username, email): InsertOne fails
    (Except.error (SvcError.api ⟨"DB_ERROR", "failed to create user in database", 500, ""⟩), st)
  else
    let newDoc : UserDoc := ⟨{ user with id := genObjectID }, none⟩
    let st1 := { st with mongo := st.mongo ++ [newDoc] }
    let st2 := { st1 with cache := setKV st1.cache ("user:" ++ genObjectID) user }
    (Except.ok user.publicID, st2)

/-- Login (user_service.go 482-513).  `checkPw` models
bcrypt.CompareHashAndPassword, `token` the signed JWT.  The cached payload is
stored under "user:" + the *internal* `user.ID`. -/
def login (checkPw : String → String → Bool) (st : SysState)
    (username password token : String) : Except SvcError String × SysState :=
  match findDoc (fun dd => dd.user.username = username) st.mongo with
  | none => (Except.error (SvcError.api ErrNotFound), st)
  | some dd =>
    if checkPw dd.user.passwordHash password then
      (Except.ok token, { st with cache := setKV st.cache ("user:" ++ dd.user.id) dd.user })
    else
      (Except.error (SvcError.api ⟨"INVALID_CREDENTIALS", "Invalid username or password", 401, ""⟩), st)

/-- State of the POI GeoService: the "data" hashes keyed by POI id, and the
"pois:geo" geospatial set. -/
structure POIState where
  poiHash : List (String × POI)
  geo : List GeoEntry
deriving DecidableEq, Repr

/-- FindNearbyPOIs (GeoService): GeoRadius on "pois:geo" with `Unit: "km"`,
`Sort: "ASC"`, `Count: 50`; per hit: HGET the payload (skip on failure),
apply the type filter, convert the store distance from km to meters, and
keep the POI only if that distance is within the requested radius. -/
def findNearbyPOIs (d : DistFn) (st : POIState) (lat lon radius : ℚ)
    (poiKind : String) : List POI :=
  let hits := geoRadius d st.geo lon lat radius true (some 50)
  hits.filterMap (fun h =>
    match lookupKV st.poiHash h.name with
    | none => none
    | some poi =>
      if poiKind ≠ "" ∧ poi.poiKind ≠ poiKind then none
      else
        let distance := h.distKm * 1000
        if distance ≤ radius then some poi else none)

/-! ### Store-level helper lemmas -/

theorem lookupKV_setKV_self (kv : List (String × α)) (k : String) (v : α) :
    lookupKV (setKV kv k v) k = some v := by
  induction kv with
  | nil => simp [setKV, lookupKV]
  | cons p rest ih =>
    obtain ⟨k', v'⟩ := p
    by_cases h : k' = k
    · simp [setKV, lookupKV, h]
    · simp [setKV, lookupKV, h, ih]

theorem lookupKV_setKV_ne (kv : List (String × α)) {k k' : String} (v : α) (h : k ≠ k') :
    lookupKV (setKV kv k v) k' = lookupKV kv k' := by
  induction kv with
  | nil => simp [setKV, lookupKV, h]
  | cons p rest ih =>
    obtain ⟨k'', v''⟩ := p
    by_cases h2 : k'' = k
    · subst h2; simp [setKV, lookupKV, h]
    · simp [setKV, lookupKV, h2, ih]

theorem userKey_inj {a b : String} (h : "user:" ++ a = "user:" ++ b) : a = b := by
  have h2 : ("user:" ++ a).data = ("user:" ++ b).data := by rw [h]
  simp [String.data_append] at h2
  exact String.ext h2

theorem findDoc_prop {p : α → Prop} [DecidablePred p] {l : List α} {d : α}
    (h : findDoc p l = some d) : p d := by
  induction l with
  | nil => simp [findDoc] at h
  | cons x xs ih =>
    by_cases hx : p x
    · simp only [findDoc, if_pos hx, Option.some.injEq] at h
      exact h ▸ hx
    · simp only [findDoc, if_neg hx] at h
      exact ih h

theorem findDoc_eq_none {p : α → Prop} [DecidablePred p] {l : List α}
    (h : ∀ d ∈ l, ¬ p d) : findDoc p l = none := by
  induction l with
  | nil => simp [findDoc]
  | cons x xs ih =>
    simp only [findDoc, if_neg (h x (List.mem_cons_self x xs))]
    exact ih fun d hd => h d (List.mem_cons_of_mem x hd)

theorem findDoc_append_none {p : α → Prop} [DecidablePred p] {l1 l2 : List α}
    (h : findDoc p l1 = none) : findDoc p (l1 ++ l2) = findDoc p l2 := by
  induction l1 with
  | nil => rfl
  | cons x xs ih =>
    by_cases hx : p x
    · simp [findDoc, if_pos hx] at h
    · simp only [findDoc, if_neg hx] at h
      simp only [List.cons_append, findDoc, if_neg hx]
      exact ih h

theorem findDoc_updateDoc_isSome {p q : α → Prop} [DecidablePred p] [DecidablePred q]
    {f : α → α} {l : List α} (hpres : ∀ x, p (f x) ↔ p x) {d : α}
    (h : findDoc p l = some d) : ∃ d', findDoc p (updateDoc q f l) = some d' := by
  induction l with
  | nil => simp [findDoc] at h
  | cons x xs ih =>
    by_cases hq : q x
    · by_cases hx : p x
      · exact ⟨f x, by simp [updateDoc, if_pos hq, findDoc, if_pos ((hpres x).mpr hx)]⟩
      · simp only [findDoc, if_neg hx] at h
        refine ⟨d, ?_⟩
        simp only [updateDoc, if_pos hq, findDoc, if_neg (fun hfx => hx ((hpres x).mp hfx))]
        exact h
    · by_cases hx : p x
      · exact ⟨x, by simp [updateDoc, if_neg hq, findDoc, if_pos hx]⟩
      · simp only [findDoc, if_neg hx] at h
        obtain ⟨d', hd'⟩ := ih h
        refine ⟨d', ?_⟩
        simp only [updateDoc, if_neg hq, findDoc, if_neg hx]
        exact hd'

theorem mem_addToSet_self (l : List String) (x : String) : x ∈ addToSet l x := by
  unfold addToSet
  split
  · assumption
  · simp

theorem not_mem_pullFromList_self (l : List String) (x : String) :
    x ∉ pullFromList l x := by
  simp [pullFromList, List.mem_filter]

/-- Invariant of the Redis cache: whatever is stored under "user:"+k is a
payload whose public identifier is k.  Every write the services perform
maintains it, and it is what ties a resolved payload back to the hit that
produced it. -/
def CacheConsistent (c : List (String × User)) : Prop :=
  ∀ k u, lookupKV c ("user:" ++ k) = some u → u.publicID = k

/-! ### GetUser invariants -/

theorem getUser_mongo_eq (st : SysState) (uid : String) :
    ((getUser st uid).2).mongo = st.mongo := by
  unfold getUser
  cases hcl : lookupKV st.cache ("user:" ++ uid) with
  | some u => rfl
  | none =>
    cases hf : findDoc (fun d => d.user.publicID = uid) st.mongo with
    | none => rfl
    | some d => rfl

theorem getUser_geo_eq (st : SysState) (uid : String) :
    ((getUser st uid).2).geo = st.geo := by
  unfold getUser
  cases hcl : lookupKV st.cache ("user:" ++ uid) with
  | some u => rfl
  | none =>
    cases hf : findDoc (fun d => d.user.publicID = uid) st.mongo with
    | none => rfl
    | some d => rfl

theorem getUser_publicID {st : SysState} {uid : String} {u : User}
    (hc : CacheConsistent st.cache)
    (h : (getUser st uid).1 = Except.ok u) : u.publicID = uid := by
  unfold getUser at h
  cases hcl : lookupKV st.cache ("user:" ++ uid) with
  | some w =>
    rw [hcl] at h
    simp only [Except.ok.injEq] at h
    subst h
    exact hc uid w hcl
  | none =>
    rw [hcl] at h
    cases hf : findDoc (fun d => d.user.publicID = uid) st.mongo with
    | none => rw [hf] at h; simp at h
    | some d =>
      rw [hf] at h
      simp only [Except.ok.injEq] at h
      subst h
      have hp := findDoc_prop hf
      exact hp

theorem getUser_consistent (st : SysState) (uid : String)
    (hc : CacheConsistent st.cache) :
    CacheConsistent ((getUser st uid).2).cache := by
  unfold getUser
  cases hcl : lookupKV st.cache ("user:" ++ uid) with
  | some u => exact hc
  | none =>
    cases hf : findDoc (fun d => d.user.publicID = uid) st.mongo with
    | none => exact hc
    | some dd =>
      intro k u hk
      by_cases hku : k = uid
      · subst hku
        rw [lookupKV_setKV_self] at hk
        injection hk with hk
        subst hk
        have hp := findDoc_prop hf
        exact hp
      · rw [lookupKV_setKV_ne _ _ (fun hcontra => hku (userKey_inj hcontra).symm)] at hk
        exact hc k u hk

theorem getUser_ok_of_mongo (st : SysState) (uid : String) {dd : UserDoc}
    (h : findDoc (fun x => x.user.publicID = uid) st.mongo = some dd) :
    ∃ u, (getUser st uid).1 = Except.ok u := by
  unfold getUser
  cases hcl : lookupKV st.cache ("user:" ++ uid) with
  | some u => exact ⟨u, rfl⟩
  | none => exact ⟨dd.user, by rw [h]⟩

/-! ### Result-loop lemmas -/

theorem nearbyUsersLoop_no_self (uid : String) (hits : List GeoHit) :
    ∀ (st : SysState), CacheConsistent st.cache →
      ∀ e ∈ (nearbyUsersLoop uid st hits).1, e.userID ≠ uid := by
  induction hits with
  | nil =>
    intro st _ e he
    simp [nearbyUsersLoop] at he
  | cons h rest ih =>
    intro st hc e he
    by_cases hn : h.name = uid
    · rw [nearbyUsersLoop, if_pos hn] at he
      exact ih st hc e he
    · rw [nearbyUsersLoop, if_neg hn] at he
      rcases hg : getUser st h.name with ⟨r, st2⟩
      rw [hg] at he
      have hc2 : CacheConsistent st2.cache := by
        have h2 := getUser_consistent st h.name hc
        rw [hg] at h2
        exact h2
      cases r with
      | error e0 => exact ih st2 hc2 e he
      | ok u =>
        have hu : u.publicID = h.name := by
          refine getUser_publicID hc ?_
          rw [hg]
        have he2 : e ∈ (⟨u.username, u.publicID, h.distKm, h.lat, h.lon⟩ : NearbyUser) ::
            (nearbyUsersLoop uid st2 rest).1 := he
        rcases List.mem_cons.mp he2 with rfl | htail
        · simpa [hu] using hn
        · exact ih st2 hc2 e htail

theorem nearbyFriendsInner_consistent (h : GeoHit) (fr : List String) :
    ∀ (st : SysState), CacheConsistent st.cache →
      CacheConsistent ((nearbyFriendsInner h st fr).2).cache := by
  induction fr with
  | nil => intro st hc; exact hc
  | cons fid rest ih =>
    intro st hc
    by_cases hf : h.name = fid
    · rw [nearbyFriendsInner, if_pos hf]
      rcases hg : getUser st h.name with ⟨r, st2⟩
      have hc2 : CacheConsistent st2.cache := by
        have h2 := getUser_consistent st h.name hc
        rw [hg] at h2
        exact h2
      cases r with
      | error e0 => exact ih st2 hc2
      | ok u => exact ih st2 hc2
    · rw [nearbyFriendsInner, if_neg hf]
      exact ih st hc

theorem nearbyFriendsInner_mem (h : GeoHit) (fr : List String) :
    ∀ (st : SysState), CacheConsistent st.cache →
      ∀ e ∈ (nearbyFriendsInner h st fr).1, e.userID ∈ fr := by
  induction fr with
  | nil =>
    intro st _ e he
    simp [nearbyFriendsInner] at he
  | cons fid rest ih =>
    intro st hc e he
    by_cases hf : h.name = fid
    · rw [nearbyFriendsInner, if_pos hf] at he
      rcases hg : getUser st h.name with ⟨r, st2⟩
      rw [hg] at he
      have hc2 : CacheConsistent st2.cache := by
        have h2 := getUser_consistent st h.name hc
        rw [hg] at h2
        exact h2
      cases r with
      | error e0 => exact List.mem_cons_of_mem _ (ih st2 hc2 e he)
      | ok u =>
        have hu : u.publicID = h.name := by
          refine getUser_publicID hc ?_
          rw [hg]
        have he2 : e ∈ (⟨u.username, u.publicID, h.distKm, h.lat, h.lon⟩ : NearbyUser) ::
            (nearbyFriendsInner h st2 rest).1 := he
        rcases List.mem_cons.mp he2 with rfl | htail
        · simp [hu, hf]
        · exact List.mem_cons_of_mem _ (ih st2 hc2 e htail)
    · rw [nearbyFriendsInner, if_neg hf] at he
      exact List.mem_cons_of_mem _ (ih st hc e he)

theorem nearbyFriendsLoop_mem (uid : String) (friends : List String) (hits : List GeoHit) :
    ∀ (st : SysState), CacheConsistent st.cache →
      ∀ e ∈ (nearbyFriendsLoop uid friends st hits).1, e.userID ∈ friends := by
  induction hits with
  | nil =>
    intro st _ e he
    simp [nearbyFriendsLoop] at he
  | cons h rest ih =>
    intro st hc e he
    by_cases hn : h.name = uid
    · rw [nearbyFriendsLoop, if_pos hn] at he
      exact ih st hc e he
    · rw [nearbyFriendsLoop, if_neg hn] at he
      have he2 : e ∈ (nearbyFriendsInner h st friends).1 ++
          (nearbyFriendsLoop uid friends (nearbyFriendsInner h st friends).2 rest).1 := he
      rcases List.mem_append.mp he2 with h1 | h2
      · exact nearbyFriendsInner_mem h friends st hc e h1
      · exact ih _ (nearbyFriendsInner_consistent h friends st hc) e h2

theorem cacheConsistent_nil : CacheConsistent [] := by
  intro k u h
  simp [lookupKV] at h

/-- A concrete distance function for witnesses and counterexamples (any
`DistFn` works for the universally-quantified theorems; the store's real
haversine is irrelevant to the properties at stake, so witnesses fix a
simple table keyed on the member longitude). -/
def dWit : DistFn := fun _ _ lon2 _ =>
  if lon2 = 1 then 1 else if lon2 = 2 then 2 else if lon2 = 5 then 5 else 0

/-! ### C8 -/

/-- C8: `getNearbyUsers(A, lon, lat, r)` never includes the caller A itself:
the loop skips every geo hit whose member name is the caller, and (under the
cache key/payload consistency invariant) each returned row's `UserID` is the
hit's member name. -/
theorem getNearbyUsers_excludes_self (d : DistFn) (st : SysState) (uid : String)
    (lat lon radius : ℚ) (hc : CacheConsistent st.cache) (res : List NearbyUser)
    (hres : (getNearbyUsers d st (some uid) lat lon radius).1 = Except.ok res) :
    ∀ e ∈ res, e.userID ≠ uid := by
  unfold getNearbyUsers at hres
  split at hres
  · simp at hres
  · next userID heq =>
    injection heq with heq2
    subst heq2
    split at hres
    · simp at hres
    · split at hres
      · simp at hres
      · simp only [Except.ok.injEq] at hres
        subst hres
        exact nearbyUsersLoop_no_self uid _ st hc

def uC8a : User :=
  ⟨"aaaaaaaaaaaaaaaaaaaaaaaa", "pub-a", "alice", "a@x", "ha", [], ⟨"Point", [0, 0]⟩, [], [], []⟩

def uC8b : User :=
  ⟨"bbbbbbbbbbbbbbbbbbbbbbbb", "pub-b", "bob", "b@x", "hb", [], ⟨"Point", [1, 0]⟩, [], [], []⟩

def stC8 : SysState :=
  ⟨[⟨uC8a, none⟩, ⟨uC8b, none⟩], [], [⟨"pub-a", 0, 0⟩, ⟨"pub-b", 1, 0⟩]⟩

theorem getNearbyUsers_excludes_self_witness :
    (⟨"bob", "pub-b", 1, 0, 1⟩ : NearbyUser).userID ≠ "pub-a" :=
  getNearbyUsers_excludes_self dWit stC8 "pub-a" 0 0 3000 cacheConsistent_nil
    [⟨"bob", "pub-b", 1, 0, 1⟩] (by rfl) ⟨"bob", "pub-b", 1, 0, 1⟩ (by simp)

/-! ### C4 -/

/-- C4: `getNearbyFriends(A, …)` only ever returns entities whose public
identifier is in A's `friends` set as stored in the *durable* store: the
caller document is read by a direct Mongo `FindOne` (the Redis cache — here
arbitrary, provided it satisfies the key/payload invariant — is not used
for the membership filter). -/
theorem getNearbyFriends_only_friends (d : DistFn) (st : SysState) (uid : String)
    (lat lon radius : ℚ) (hc : CacheConsistent st.cache) (res : List NearbyUser)
    (hres : (getNearbyFriends d st (some uid) lat lon radius).1 = Except.ok res) :
    ∃ callerDoc, findDoc (fun dd => dd.user.publicID = uid) st.mongo = some callerDoc ∧
      ∀ e ∈ res, e.userID ∈ callerDoc.user.friends := by
  unfold getNearbyFriends at hres
  split at hres
  · simp at hres
  · next userID heq =>
    injection heq with heq2
    subst heq2
    split at hres
    · simp at hres
    · split at hres
      · simp at hres
      · split at hres
        · simp at hres
        · next callerDoc hfind =>
          refine ⟨callerDoc, hfind, ?_⟩
          simp only [Except.ok.injEq] at hres
          subst hres
          exact nearbyFriendsLoop_mem uid callerDoc.user.friends _ st hc

def uC4a : User :=
  ⟨"aaaaaaaaaaaaaaaaaaaaaa01", "pub-fa", "fay", "fa@x", "h1", [], ⟨"Point", [0, 0]⟩,
    ["pub-fb"], [], []⟩

def uC4b : User :=
  ⟨"bbbbbbbbbbbbbbbbbbbbbb02", "pub-fb", "fred", "fb@x", "h2", [], ⟨"Point", [1, 0]⟩,
    ["pub-fa"], [], []⟩

def uC4c : User :=
  ⟨"cccccccccccccccccccccc03", "pub-fc", "nonfriend", "fc@x", "h3", [], ⟨"Point", [2, 0]⟩,
    [], [], []⟩

def stC4 : SysState :=
  ⟨[⟨uC4a, none⟩, ⟨uC4b, none⟩, ⟨uC4c, none⟩], [],
    [⟨"pub-fa", 0, 0⟩, ⟨"pub-fb", 1, 0⟩, ⟨"pub-fc", 2, 0⟩]⟩

theorem getNearbyFriends_only_friends_witness :
    ∃ callerDoc, findDoc (fun dd => dd.user.publicID = "pub-fa") stC4.mongo = some callerDoc ∧
      ∀ e ∈ [(⟨"fred", "pub-fb", 1, 0, 1⟩ : NearbyUser)],
        e.userID ∈ callerDoc.user.friends :=
  getNearbyFriends_only_friends dWit stC4 "pub-fa" 0 0 3000 cacheConsistent_nil
    [⟨"fred", "pub-fb", 1, 0, 1⟩] (by rfl)

/-! ### C5 -/

/-- C5 (amended): for out-of-range coordinates `UserLocationPing` returns
an error *before touching any store* — the whole state (durable store,
cache, geo set) is returned unchanged — but the error is the generic
`fmt.Errorf("invalid coordinates…")`, not the structured `InvalidInput`
kind. -/
theorem userLocationPing_invalid_coords (plan : FailurePlan) (st : SysState)
    (uid : String) (lat lon : ℚ) (huid : uid ≠ "")
    (hbad : lat < -90 ∨ lat > 90 ∨ lon < -180 ∨ lon > 180) :
    userLocationPing plan st (some uid) lat lon =
      (Except.error (SvcError.invalidCoordinates lat lon), st) := by
  simp [userLocationPing, huid, hbad]

def stC5 : SysState := ⟨[], [], []⟩

theorem userLocationPing_invalid_coords_witness :
    userLocationPing allStoresUp stC5 (some "pub-a") 91 200 =
      (Except.error (SvcError.invalidCoordinates 91 200), stC5) :=
  userLocationPing_invalid_coords allStoresUp stC5 "pub-a" 91 200 (by decide)
    (Or.inr (Or.inl (by norm_num)))

/-- C5 counterexample: at `lat = 91` the ping does fail without any store
write, but the error value is the generic invalid-coordinates error, which
is *not* the structured `InvalidInput` API error the claim names. -/
theorem userLocationPing_invalid_coords_cex :
    (userLocationPing allStoresUp stC5 (some "pub-a") 91 100).1 =
        Except.error (SvcError.invalidCoordinates 91 100) ∧
    (userLocationPing allStoresUp stC5 (some "pub-a") 91 100).2 = stC5 ∧
    SvcError.invalidCoordinates 91 100 ≠ SvcError.api ErrInvalidInput := by
  refine ⟨by rfl, by rfl, ?_⟩
  simp

/-! ### C1 -/

/-- C1 (amended): only the POI proximity query converts the store's native
km distance to meters and re-checks it against the requested radius — every
POI it returns comes from a hit whose converted distance is within the
radius.  (The user/friend queries perform no such conversion or re-check;
see the counterexample.) -/
theorem findNearbyPOIs_recheck (d : DistFn) (st : POIState) (lat lon radius : ℚ)
    (kind : String) :
    ∀ poi ∈ findNearbyPOIs d st lat lon radius kind,
      ∃ h ∈ geoRadius d st.geo lon lat radius true (some 50),
        lookupKV st.poiHash h.name = some poi ∧ h.distKm * 1000 ≤ radius := by
  intro poi hmem
  unfold findNearbyPOIs at hmem
  rw [List.mem_filterMap] at hmem
  obtain ⟨h, hh, hf⟩ := hmem
  refine ⟨h, hh, ?_⟩
  split at hf
  · simp at hf
  · next p hl =>
    split at hf
    · simp at hf
    · by_cases hdist : h.distKm * 1000 ≤ radius
      · simp only [if_pos hdist, Option.some.injEq] at hf
        subst hf
        exact ⟨hl, hdist⟩
      · simp only [if_neg hdist] at hf
        simp at hf

def poiC1 : POI := ⟨"p1", "cafe one", "a cafe", "cafe", ⟨"Point", [1, 0]⟩, [], "addr 1"⟩

def stC1poi : POIState := ⟨[("p1", poiC1)], [⟨"p1", 1, 0⟩]⟩

theorem findNearbyPOIs_recheck_witness :
    ∃ h ∈ geoRadius dWit stC1poi.geo 0 0 2000 true (some 50),
      lookupKV stC1poi.poiHash h.name = some poiC1 ∧ h.distKm * 1000 ≤ 2000 :=
  findNearbyPOIs_recheck dWit stC1poi 0 0 2000 "" poiC1 (by
    norm_num [findNearbyPOIs, geoRadius, lookupKV, dWit, stC1poi, poiC1,
      List.insertionSort, List.orderedInsert])

def uC1a : User :=
  ⟨"aaaaaaaaaaaaaaaaaaaaaa11", "pub-ca", "carl", "ca@x", "h1", [], ⟨"Point", [0, 0]⟩, [], [], []⟩

def uC1b : User :=
  ⟨"bbbbbbbbbbbbbbbbbbbbbb12", "pub-cb", "carol", "cb@x", "h2", [], ⟨"Point", [5, 0]⟩, [], [], []⟩

def stC1 : SysState :=
  ⟨[⟨uC1a, none⟩, ⟨uC1b, none⟩], [], [⟨"pub-ca", 0, 0⟩, ⟨"pub-cb", 5, 0⟩]⟩

/-- C1 counterexample: a nearby-users query with radius 3000 (meters, per
the handler's contract) returns a user whose store-computed distance is
5 km = 5000 m > 3000 m: GetNearbyUsers hands the meter radius to the store
as a km radius and never converts or re-checks the distance. -/
theorem getNearbyUsers_radius_cex :
    (getNearbyUsers dWit stC1 (some "pub-ca") 0 0 3000).1 =
      Except.ok [⟨"carol", "pub-cb", 5, 0, 5⟩] ∧ (5 : ℚ) * 1000 > 3000 := by
  constructor
  · rfl
  · norm_num

/-! ### C7 -/

instance : IsTotal GeoHit (fun a b => a.distKm ≤ b.distKm) :=
  ⟨fun a b => le_total a.distKm b.distKm⟩

instance : IsTrans GeoHit (fun a b => a.distKm ≤ b.distKm) :=
  ⟨fun _ _ _ hab hbc => le_trans hab hbc⟩

/-- C7 (amended): the POI radius query requests its hits sorted ascending by
distance and bounded to 50, so FindNearbyPOIs returns at most 50 POIs and
consumes a distance-sorted hit list.  (The user/friend radius queries
request neither `Sort` nor `Count`; see the counterexample.) -/
theorem findNearbyPOIs_sorted_bounded (d : DistFn) (st : POIState) (lat lon radius : ℚ)
    (kind : String) :
    (findNearbyPOIs d st lat lon radius kind).length ≤ 50 ∧
    List.Sorted (fun a b => a.distKm ≤ b.distKm)
      (geoRadius d st.geo lon lat radius true (some 50)) := by
  constructor
  · unfold findNearbyPOIs geoRadius
    refine le_trans (List.length_filterMap_le _ _) ?_
    exact List.length_take_le _ _
  · unfold geoRadius
    have hs := List.sorted_insertionSort (fun a b : GeoHit => a.distKm ≤ b.distKm)
      (st.geo.filterMap (fun e =>
        let dist := d lon lat e.lon e.lat
        if dist ≤ radius then some ⟨e.name, e.lon, e.lat, dist⟩ else none))
    exact List.Pairwise.sublist (List.take_sublist _ _) hs

def uC7a : User :=
  ⟨"aaaaaaaaaaaaaaaaaaaaaa21", "pub-7a", "ann", "7a@x", "h1", [], ⟨"Point", [0, 0]⟩, [], [], []⟩

def uC7b : User :=
  ⟨"bbbbbbbbbbbbbbbbbbbbbb22", "pub-7b", "bart", "7b@x", "h2", [], ⟨"Point", [2, 0]⟩, [], [], []⟩

def uC7c : User :=
  ⟨"cccccccccccccccccccccc23", "pub-7c", "cleo", "7c@x", "h3", [], ⟨"Point", [1, 0]⟩, [], [], []⟩

def stC7 : SysState :=
  ⟨[⟨uC7a, none⟩, ⟨uC7b, none⟩, ⟨uC7c, none⟩], [],
    [⟨"pub-7b", 2, 0⟩, ⟨"pub-7c", 1, 0⟩]⟩

def resC7 : List NearbyUser :=
  [⟨"bart", "pub-7b", 2, 0, 2⟩, ⟨"cleo", "pub-7c", 1, 0, 1⟩]

/-- C7 counterexample: the users radius query requests no ascending sort
(and no 50 bound), so GetNearbyUsers returns hits in the store's reply
order — here distance 2 before distance 1, which is not non-decreasing. -/
theorem getNearbyUsers_order_cex :
    (getNearbyUsers dWit stC7 (some "pub-7a") 0 0 3000).1 = Except.ok resC7 ∧
    ¬ List.Sorted (fun a b => a.distance ≤ b.distance) resC7 := by
  constructor
  · rfl
  · intro hs
    have h2 := List.rel_of_sorted_cons hs ⟨"cleo", "pub-7c", 1, 0, 1⟩ (by simp [resC7])
    norm_num at h2

/-! ### C6 -/

/-- C6 (amended): when the Redis write of the refreshed location payload
fails after the durable (Mongo) write succeeded, UserLocationPing does NOT
report success — it returns the cache error to the caller (after logging
it); the durable write is kept in place, not rolled back. -/
theorem userLocationPing_cache_fail (st : SysState) (uid : String) (lat lon : ℚ)
    (huid : uid ≠ "")
    (hgood : ¬(lat < -90 ∨ lat > 90 ∨ lon < -180 ∨ lon > 180))
    (dd0 : UserDoc)
    (hdoc : findDoc (fun x => x.user.publicID = uid) st.mongo = some dd0) :
    (userLocationPing ⟨false, true, false⟩ st (some uid) lat lon).1 =
        Except.error SvcError.redisSetFailed ∧
    ((userLocationPing ⟨false, true, false⟩ st (some uid) lat lon).2).mongo =
      updateDoc (fun x => x.user.publicID = uid)
        (fun x => { x with lastLocationStray := some ⟨"Point", [lon, lat]⟩ }) st.mongo := by
  obtain ⟨u1, hu1⟩ := getUser_ok_of_mongo st uid hdoc
  rcases hg1 : getUser st uid with ⟨r1, st1⟩
  have hr1 : r1 = Except.ok u1 := by rw [hg1] at hu1; exact hu1
  subst hr1
  have hm1 : st1.mongo = st.mongo := by
    have h2 := getUser_mongo_eq st uid
    rw [hg1] at h2
    exact h2
  have hdoc1 : findDoc (fun x => x.user.publicID = uid) st1.mongo = some dd0 := by
    rw [hm1]; exact hdoc
  obtain ⟨dd1, hdd1⟩ := @findDoc_updateDoc_isSome UserDoc
    (fun x => x.user.publicID = uid) (fun x => x.user.publicID = uid) _ _
    (fun x => { x with lastLocationStray := some ⟨"Point", [lon, lat]⟩ })
    st1.mongo (fun x => Iff.rfl) dd0 hdoc1
  obtain ⟨u2, hu2⟩ := getUser_ok_of_mongo
    (SysState.mk (updateDoc (fun x => x.user.publicID = uid)
      (fun x => { x with lastLocationStray := some ⟨"Point", [lon, lat]⟩ }) st1.mongo)
      st1.cache st1.geo)
    uid hdd1
  rcases hg2 : getUser
    (SysState.mk (updateDoc (fun x => x.user.publicID = uid)
      (fun x => { x with lastLocationStray := some ⟨"Point", [lon, lat]⟩ }) st1.mongo)
      st1.cache st1.geo)
    uid with ⟨r2, st3⟩
  have hr2 : r2 = Except.ok u2 := by rw [hg2] at hu2; exact hu2
  subst hr2
  have hm3 : st3.mongo = updateDoc (fun x => x.user.publicID = uid)
      (fun x => { x with lastLocationStray := some ⟨"Point", [lon, lat]⟩ }) st1.mongo := by
    have h2 := getUser_mongo_eq
      (SysState.mk (updateDoc (fun x => x.user.publicID = uid)
        (fun x => { x with lastLocationStray := some ⟨"Point", [lon, lat]⟩ }) st1.mongo)
        st1.cache st1.geo)
      uid
    rw [hg2] at h2
    exact h2
  have heval : userLocationPing ⟨false, true, false⟩ st (some uid) lat lon =
      (Except.error SvcError.redisSetFailed, st3) := by
    simp [userLocationPing, huid, hgood, hg1, hg2]
  rw [heval]
  refine ⟨rfl, ?_⟩
  rw [hm3, hm1]

def uC6 : User :=
  ⟨"aaaaaaaaaaaaaaaaaaaaaa31", "pub-p6", "pia", "p6@x", "h1", [], ⟨"Point", [7, 8]⟩, [], [], []⟩

def stC6 : SysState := ⟨[⟨uC6, none⟩], [], []⟩

theorem userLocationPing_cache_fail_witness :
    (userLocationPing ⟨false, true, false⟩ stC6 (some "pub-p6") 1 2).1 =
        Except.error SvcError.redisSetFailed ∧
    ((userLocationPing ⟨false, true, false⟩ stC6 (some "pub-p6") 1 2).2).mongo =
      updateDoc (fun x => x.user.publicID = "pub-p6")
        (fun x => { x with lastLocationStray := some ⟨"Point", [2, 1]⟩ }) stC6.mongo :=
  userLocationPing_cache_fail stC6 "pub-p6" 1 2 (by decide) (by norm_num) ⟨uC6, none⟩ (by rfl)

/-- C6 counterexample: with the durable write succeeding and the Redis
location-cache write failing, UserLocationPing returns the propagated Redis
error instead of reporting success — and the durable write stays applied. -/
theorem userLocationPing_cache_fail_cex :
    (userLocationPing ⟨false, true, false⟩ stC6 (some "pub-p6") 1 2).1 =
        Except.error SvcError.redisSetFailed ∧
    (userLocationPing ⟨false, true, false⟩ stC6 (some "pub-p6") 1 2).1 ≠ Except.ok () ∧
    ((userLocationPing ⟨false, true, false⟩ stC6 (some "pub-p6") 1 2).2).mongo =
      [⟨uC6, some ⟨"Point", [2, 1]⟩⟩] := by
  have h1 : (userLocationPing ⟨false, true, false⟩ stC6 (some "pub-p6") 1 2).1 =
      Except.error SvcError.redisSetFailed := by rfl
  refine ⟨h1, ?_, by rfl⟩
  rw [h1]
  simp

/-! ### C2 -/

def uC2a : User :=
  ⟨"aaaaaaaaaaaaaaaaaaaaaa41", "pub-2a", "ana", "2a@x", "h1", [], ⟨"Point", [0, 0]⟩, [], [], []⟩

def uC2b : User :=
  ⟨"bbbbbbbbbbbbbbbbbbbbbb42", "pub-2b", "ben", "2b@x", "h2", [], ⟨"Point", [0, 0]⟩, [], [], []⟩

def stC2 : SysState := ⟨[⟨uC2a, none⟩, ⟨uC2b, none⟩], [], []⟩

/-- State after a first successful sendRequest(A,B). -/
def stC2x : SysState := (sendFriendRequest stC2 (some "pub-2a") "pub-2b").2

/-- stC2x with the Redis cache expired, so the duplicate checks read fresh
documents from the durable store. -/
def stC2y : SysState := ⟨stC2x.mongo, [], []⟩

/-- C2 evidence: after a successful sendRequest(A,B) — which did record the
pending pair (last conjunct) — a second sendRequest(A,B) succeeds instead of
failing with Conflict (both against the still-cached recipient payload and
against fresh durable reads), and so does the symmetric sendRequest(B,A):
the duplicate checks compare the sender's internal `_id` against lists that
store public IDs, and no check consults the recipient's outgoing side. -/
theorem sendFriendRequest_no_conflict_bug :
    (sendFriendRequest stC2 (some "pub-2a") "pub-2b").1 = Except.ok () ∧
    (sendFriendRequest stC2x (some "pub-2a") "pub-2b").1 = Except.ok () ∧
    (sendFriendRequest stC2y (some "pub-2a") "pub-2b").1 = Except.ok () ∧
    (sendFriendRequest stC2y (some "pub-2b") "pub-2a").1 = Except.ok () ∧
    (findDoc (fun dd => dd.user.publicID = "pub-2b") stC2x.mongo).map
      (fun dd => dd.user.pendingFriendRequests) = some ["pub-2a"] := by
  refine ⟨by rfl, by rfl, by rfl, by rfl, by rfl⟩

/-! ### C10 -/

/-- C10: Register caches the new user under "user:"+insertedObjectID and
Login under "user:"+user.ID (both internal handles), while GetUser reads
"user:"+publicID — so for a fresh register/login, GetUser's cache probe
misses and the user is served from the durable store. -/
theorem register_login_cache_key_mismatch (st : SysState)
    (pubID objID pwHash uname email : String)
    (hids : pubID ≠ objID)
    (hkey : lookupKV st.cache ("user:" ++ pubID) = none)
    (hnodup : ∀ dd ∈ st.mongo, dd.user.publicID ≠ pubID)
    (hfresh : ¬ ∃ dd ∈ st.mongo, dd.user.username = uname ∧ dd.user.email = email)
    (checkPw : String → String → Bool) (lname lpw tok : String) (dL : UserDoc)
    (hL : findDoc (fun dd => dd.user.username = lname) st.mongo = some dL)
    (hpw : checkPw dL.user.passwordHash lpw = true)
    (hLkey : lookupKV st.cache ("user:" ++ dL.user.publicID) = none)
    (hLid : dL.user.id ≠ dL.user.publicID) :
    (register st pubID objID pwHash uname email).1 = Except.ok pubID ∧
    lookupKV ((register st pubID objID pwHash uname email).2).cache ("user:" ++ pubID) = none ∧
    (getUser ((register st pubID objID pwHash uname email).2) pubID).1 =
      Except.ok ⟨objID, pubID, uname, email, pwHash, [], ⟨"Point", [0, 0]⟩, [], [], []⟩ ∧
    (login checkPw st lname lpw tok).1 = Except.ok tok ∧
    lookupKV ((login checkPw st lname lpw tok).2).cache ("user:" ++ dL.user.publicID) = none := by
  refine ⟨?_, ?_, ?_, ?_, ?_⟩
  · simp [register, hfresh]
  · simp only [register, if_neg hfresh]
    rw [lookupKV_setKV_ne _ _ (fun h => hids (userKey_inj h).symm)]
    exact hkey
  · simp only [register, if_neg hfresh]
    unfold getUser
    rw [lookupKV_setKV_ne _ _ (fun h => hids (userKey_inj h).symm), hkey,
      findDoc_append_none (findDoc_eq_none hnodup)]
    simp [findDoc]
  · simp only [login, hL]
    rw [hpw]
    simp
  · simp only [login, hL]
    rw [hpw]
    simp only [if_true]
    rw [lookupKV_setKV_ne _ _ (fun h => hLid (userKey_inj h))]
    exact hLkey

def uC10 : User :=
  ⟨"cccccccccccccccccccccc51", "pub-10c", "carla", "c10@x", "pw-hash", [],
    ⟨"Point", [0, 0]⟩, [], [], []⟩

def stC10 : SysState := ⟨[⟨uC10, none⟩], [], []⟩

/-- Witness password check: plain equality stands in for bcrypt comparison. -/
def checkPwEq : String → String → Bool := fun h p => h == p

theorem register_login_cache_key_mismatch_witness :
    (register stC10 "pub-10r" "dddddddddddddddddddddd52" "hh" "rita" "r@x").1 =
      Except.ok "pub-10r" ∧
    lookupKV ((register stC10 "pub-10r" "dddddddddddddddddddddd52" "hh" "rita" "r@x").2).cache
      ("user:" ++ "pub-10r") = none ∧
    (getUser ((register stC10 "pub-10r" "dddddddddddddddddddddd52" "hh" "rita" "r@x").2)
        "pub-10r").1 =
      Except.ok ⟨"dddddddddddddddddddddd52", "pub-10r", "rita", "r@x", "hh", [],
        ⟨"Point", [0, 0]⟩, [], [], []⟩ ∧
    (login checkPwEq stC10 "carla" "pw-hash" "tok1").1 = Except.ok "tok1" ∧
    lookupKV ((login checkPwEq stC10 "carla" "pw-hash" "tok1").2).cache
      ("user:" ++ (⟨uC10, none⟩ : UserDoc).user.publicID) = none :=
  register_login_cache_key_mismatch stC10 "pub-10r" "dddddddddddddddddddddd52" "hh"
    "rita" "r@x" (by decide) (by rfl) (by simp [stC10, uC10]) (by simp [stC10, uC10])
    checkPwEq "carla" "pw-hash" "tok1" ⟨uC10, none⟩ (by rfl) (by rfl) (by rfl)
    (by simp [uC10])

/-! ### C9 -/

/-- C9: with valid coordinates, an existing caller, all stores up, and a
consistent cache, UserLocationPing succeeds and an immediately following
GetUser for the same caller returns the new coordinates (served from the
location payload the ping wrote to the cache under "user:"+PublicID). -/
theorem ping_then_getUser (st : SysState) (uid : String) (lat lon : ℚ)
    (huid : uid ≠ "") (hc : CacheConsistent st.cache)
    (hgood : ¬(lat < -90 ∨ lat > 90 ∨ lon < -180 ∨ lon > 180))
    (dd0 : UserDoc)
    (hdoc : findDoc (fun x => x.user.publicID = uid) st.mongo = some dd0) :
    (userLocationPing allStoresUp st (some uid) lat lon).1 = Except.ok () ∧
    ∃ u, (getUser ((userLocationPing allStoresUp st (some uid) lat lon).2) uid).1 =
        Except.ok u ∧ u.lastLocation = ⟨"Point", [lon, lat]⟩ := by
  obtain ⟨u1, hu1⟩ := getUser_ok_of_mongo st uid hdoc
  rcases hg1 : getUser st uid with ⟨r1, st1⟩
  have hr1 : r1 = Except.ok u1 := by rw [hg1] at hu1; exact hu1
  subst hr1
  have hm1 : st1.mongo = st.mongo := by
    have h2 := getUser_mongo_eq st uid
    rw [hg1] at h2
    exact h2
  have hc1 : CacheConsistent st1.cache := by
    have h2 := getUser_consistent st uid hc
    rw [hg1] at h2
    exact h2
  have hdoc1 : findDoc (fun x => x.user.publicID = uid) st1.mongo = some dd0 := by
    rw [hm1]; exact hdoc
  obtain ⟨dd1, hdd1⟩ := @findDoc_updateDoc_isSome UserDoc
    (fun x => x.user.publicID = uid) (fun x => x.user.publicID = uid) _ _
    (fun x => { x with lastLocationStray := some ⟨"Point", [lon, lat]⟩ })
    st1.mongo (fun x => Iff.rfl) dd0 hdoc1
  obtain ⟨u2, hu2⟩ := getUser_ok_of_mongo
    (SysState.mk (updateDoc (fun x => x.user.publicID = uid)
      (fun x => { x with lastLocationStray := some ⟨"Point", [lon, lat]⟩ }) st1.mongo)
      st1.cache st1.geo)
    uid hdd1
  rcases hg2 : getUser
    (SysState.mk (updateDoc (fun x => x.user.publicID = uid)
      (fun x => { x with lastLocationStray := some ⟨"Point", [lon, lat]⟩ }) st1.mongo)
      st1.cache st1.geo)
    uid with ⟨r2, st3⟩
  have hr2 : r2 = Except.ok u2 := by rw [hg2] at hu2; exact hu2
  subst hr2
  have hfst2 : (getUser
      (SysState.mk (updateDoc (fun x => x.user.publicID = uid)
        (fun x => { x with lastLocationStray := some ⟨"Point", [lon, lat]⟩ }) st1.mongo)
        st1.cache st1.geo)
      uid).1 = Except.ok u2 := by
    rw [hg2]
  have hpub2 : u2.publicID = uid := @getUser_publicID
    (SysState.mk (updateDoc (fun x => x.user.publicID = uid)
      (fun x => { x with lastLocationStray := some ⟨"Point", [lon, lat]⟩ }) st1.mongo)
      st1.cache st1.geo)
    uid u2 hc1 hfst2
  have heval : userLocationPing allStoresUp st (some uid) lat lon =
      (Except.ok (), SysState.mk st3.mongo
        (setKV st3.cache ("user:" ++ u2.publicID)
          { u2 with lastLocation := GeoPoint.mk "Point" [lon, lat] })
        (geoAdd st3.geo u2.publicID lon lat)) := by
    simp [userLocationPing, allStoresUp, huid, hgood, hg1, hg2]
  rw [heval]
  refine ⟨rfl, ⟨{ u2 with lastLocation := GeoPoint.mk "Point" [lon, lat] }, ?_, rfl⟩⟩
  unfold getUser
  rw [hpub2, lookupKV_setKV_self]

def uC9 : User :=
  ⟨"eeeeeeeeeeeeeeeeeeeeee61", "pub-e9", "eva", "e9@x", "h9", [], ⟨"Point", [9, 9]⟩, [], [], []⟩

def stC9 : SysState := ⟨[⟨uC9, none⟩], [], []⟩

theorem ping_then_getUser_witness :
    (userLocationPing allStoresUp stC9 (some "pub-e9") 1 2).1 = Except.ok () ∧
    ∃ u, (getUser ((userLocationPing allStoresUp stC9 (some "pub-e9") 1 2).2) "pub-e9").1 =
        Except.ok u ∧ u.lastLocation = ⟨"Point", [2, 1]⟩ :=
  ping_then_getUser stC9 "pub-e9" 1 2 (by decide) cacheConsistent_nil (by norm_num)
    ⟨uC9, none⟩ (by rfl)

/-! ### C3 -/

/-- Canonical two-user store: A's and B's documents, empty cache. -/
def pairState (uA uB : User) (geo0 : List GeoEntry) : SysState :=
  ⟨[⟨uA, none⟩, ⟨uB, none⟩], [], geo0⟩

/-- Store after sendRequest(A,B) on `pairState`. -/
def afterSend (uA uB : User) (geo0 : List GeoEntry) : SysState :=
  (sendFriendRequest (pairState uA uB geo0) (some uA.publicID) uB.publicID).2

/-- Store after sendRequest(A,B) then accept(B,A) on `pairState`. -/
def afterAccept (uA uB : User) (geo0 : List GeoEntry) : SysState :=
  (acceptFriendRequest (afterSend uA uB geo0) (some uB.publicID) uA.publicID).2

/-- A's document value after sendRequest(A,B). -/
def userAfterSendA (uA uB : User) : User :=
  { uA with pendingFriendRequestsSent := addToSet uA.pendingFriendRequestsSent uB.publicID }

/-- B's document value after sendRequest(A,B). -/
def userAfterSendB (uA uB : User) : User :=
  { uB with pendingFriendRequests := addToSet uB.pendingFriendRequests uA.publicID }

/-- A's document value after sendRequest(A,B) then accept(B,A). -/
def userAfterAcceptA (uA uB : User) : User :=
  { uA with
    friends := addToSet uA.friends uB.publicID
    pendingFriendRequestsSent :=
      pullFromList (addToSet uA.pendingFriendRequestsSent uB.publicID) uB.publicID }

/-- B's document value after sendRequest(A,B) then accept(B,A). -/
def userAfterAcceptB (uA uB : User) : User :=
  { uB with
    friends := addToSet uB.friends uA.publicID
    pendingFriendRequests :=
      pullFromList (addToSet uB.pendingFriendRequests uA.publicID) uA.publicID }

/-- The cache both operations leave behind: the payloads GetUser loaded
from Mongo during the first send (never invalidated afterwards). -/
def pairCache (uA uB : User) : List (String × User) :=
  [("user:" ++ uA.publicID, uA), ("user:" ++ uB.publicID, uB)]

/-- The C3 post-conditions for the pair (A,B): send then accept both
succeed; afterwards A∈friends(B) and B∈friends(A) with the pending
bookkeeping cleared on both sides; a second accept(B,A), and an accept with
no prior request, fail with the generic "No pending friend request" error;
accept(B,B) fails with the generic self-accept error. -/
def SendAcceptSpec (uA uB : User) (geo0 : List GeoEntry) : Prop :=
  (sendFriendRequest (pairState uA uB geo0) (some uA.publicID) uB.publicID).1 =
      Except.ok () ∧
  (acceptFriendRequest (afterSend uA uB geo0) (some uB.publicID) uA.publicID).1 =
      Except.ok () ∧
  (∃ dB, findDoc (fun dd => dd.user.publicID = uB.publicID)
      (afterAccept uA uB geo0).mongo = some dB ∧
    uA.publicID ∈ dB.user.friends ∧ uA.publicID ∉ dB.user.pendingFriendRequests) ∧
  (∃ dA, findDoc (fun dd => dd.user.publicID = uA.publicID)
      (afterAccept uA uB geo0).mongo = some dA ∧
    uB.publicID ∈ dA.user.friends ∧ uB.publicID ∉ dA.user.pendingFriendRequestsSent) ∧
  (acceptFriendRequest (afterAccept uA uB geo0) (some uB.publicID) uA.publicID).1 =
      Except.error (SvcError.noPendingRequest uA.username uB.username) ∧
  (acceptFriendRequest (pairState uA uB geo0) (some uB.publicID) uA.publicID).1 =
      Except.error (SvcError.noPendingRequest uA.username uB.username) ∧
  (acceptFriendRequest (pairState uA uB geo0) (some uB.publicID) uB.publicID).1 =
      Except.error SvcError.cannotAcceptSelf

/-- C3 (amended): the friendship/pending state machine behaves as claimed
for every pair of distinct users (fresh pair, valid identifiers), except
that the failure errors are the generic message errors of the source
(`fmt.Errorf`), not the structured NotFound / InvalidInput kinds. -/
theorem send_accept_flow (uA uB : User) (geo0 : List GeoEntry)
    (hA0 : uA.publicID ≠ "") (hB0 : uB.publicID ≠ "")
    (hpub : uA.publicID ≠ uB.publicID)
    (hid : uA.id ≠ uB.id)
    (hvA : isValidObjectIDHex uA.id = true)
    (hvB : isValidObjectIDHex uB.id = true)
    (hnf : uA.id ∉ uB.friends)
    (hnp : uA.id ∉ uB.pendingFriendRequests)
    (hnp2 : uA.publicID ∉ uB.pendingFriendRequests) :
    SendAcceptSpec uA uB geo0 := by
  have hkAB : ("user:" ++ uA.publicID) ≠ ("user:" ++ uB.publicID) :=
    fun h => hpub (userKey_inj h)
  have hpub' : uB.publicID ≠ uA.publicID := Ne.symm hpub
  have hSend : sendFriendRequest (pairState uA uB geo0) (some uA.publicID) uB.publicID =
      (Except.ok (), SysState.mk
        [⟨userAfterSendA uA uB, none⟩, ⟨userAfterSendB uA uB, none⟩]
        (pairCache uA uB) geo0) := by
    simp [sendFriendRequest, getUser, pairState, lookupKV, findDoc, setKV, updateDoc,
      userAfterSendA, userAfterSendB, pairCache,
      hA0, hpub, hid, hvA, hvB, hnf, hnp, hkAB]
  have hS2 : afterSend uA uB geo0 = SysState.mk
      [⟨userAfterSendA uA uB, none⟩, ⟨userAfterSendB uA uB, none⟩]
      (pairCache uA uB) geo0 := by
    unfold afterSend
    rw [hSend]
  have hAcc : acceptFriendRequest (SysState.mk
        [⟨userAfterSendA uA uB, none⟩, ⟨userAfterSendB uA uB, none⟩]
        (pairCache uA uB) geo0)
      (some uB.publicID) uA.publicID =
      (Except.ok (), SysState.mk
        [⟨userAfterAcceptA uA uB, none⟩, ⟨userAfterAcceptB uA uB, none⟩]
        (pairCache uA uB) geo0) := by
    simp [acceptFriendRequest, getUser, lookupKV, findDoc, setKV, updateDoc,
      userAfterSendA, userAfterSendB, userAfterAcceptA, userAfterAcceptB, pairCache,
      hB0, hpub', hid, hvA, hvB, hkAB, mem_addToSet_self]
  have hA2 : afterAccept uA uB geo0 = SysState.mk
      [⟨userAfterAcceptA uA uB, none⟩, ⟨userAfterAcceptB uA uB, none⟩]
      (pairCache uA uB) geo0 := by
    unfold afterAccept
    rw [hS2, hAcc]
  refine ⟨?_, ?_, ?_, ?_, ?_, ?_, ?_⟩
  · rw [hSend]
  · rw [hS2, hAcc]
  · rw [hA2]
    refine ⟨⟨userAfterAcceptB uA uB, none⟩, ?_, ?_, ?_⟩
    · simp [findDoc, userAfterAcceptA, userAfterAcceptB, hpub]
    · simp [userAfterAcceptB, mem_addToSet_self]
    · simp [userAfterAcceptB, not_mem_pullFromList_self]
  · rw [hA2]
    refine ⟨⟨userAfterAcceptA uA uB, none⟩, ?_, ?_, ?_⟩
    · simp [findDoc, userAfterAcceptA]
    · simp [userAfterAcceptA, mem_addToSet_self]
    · simp [userAfterAcceptA, not_mem_pullFromList_self]
  · rw [hA2]
    simp [acceptFriendRequest, getUser, lookupKV, findDoc, pairCache,
      userAfterAcceptA, userAfterAcceptB,
      hB0, hpub', hid, hvA, hvB, hkAB, not_mem_pullFromList_self]
  · simp [acceptFriendRequest, getUser, pairState, lookupKV, findDoc, setKV,
      hB0, hpub, hpub', hid, hvA, hvB, hkAB, hnp2]
  · simp [acceptFriendRequest, hB0]

def uC3a : User :=
  ⟨"aaaaaaaaaaaaaaaaaaaaaa71", "pub-3a", "abe", "3a@x", "h1", [], ⟨"Point", [0, 0]⟩, [], [], []⟩

def uC3b : User :=
  ⟨"bbbbbbbbbbbbbbbbbbbbbb72", "pub-3b", "bea", "3b@x", "h2", [], ⟨"Point", [0, 0]⟩, [], [], []⟩

theorem send_accept_flow_witness : SendAcceptSpec uC3a uC3b [] :=
  send_accept_flow uC3a uC3b [] (by decide) (by decide) (by decide) (by decide)
    (by rfl) (by rfl) (by simp [uC3a, uC3b]) (by simp [uC3a, uC3b]) (by simp [uC3a, uC3b])

def uC3c : User :=
  ⟨"cccccccccccccccccccccc73", "pub-3c", "cid", "3c@x", "h3", [], ⟨"Point", [0, 0]⟩, [], [], []⟩

def uC3d : User :=
  ⟨"dddddddddddddddddddddd74", "pub-3d", "dot", "3d@x", "h4", [], ⟨"Point", [0, 0]⟩, [], [], []⟩

/-- C3 counterexample: accept with accepter = sender fails with the generic
"Cannot accept friend request from self" error, which is not the structured
`InvalidInput` API error the claim names (and the no-pending failure is the
generic "No pending friend request" error, not a structured NotFound). -/
theorem accept_self_error_kind_cex :
    (acceptFriendRequest (pairState uC3c uC3d []) (some "pub-3d") "pub-3d").1 =
        Except.error SvcError.cannotAcceptSelf ∧
    SvcError.cannotAcceptSelf ≠ SvcError.api ErrInvalidInput ∧
    (acceptFriendRequest (pairState uC3c uC3d []) (some "pub-3d") "pub-3c").1 =
        Except.error (SvcError.noPendingRequest "cid" "dot") ∧
    SvcError.noPendingRequest "cid" "dot" ≠ SvcError.api ErrNotFound := by
  refine ⟨by rfl, by simp, by rfl, by simp⟩

end GoWhere
